import Mathlib

/-!
Verification of the CrimeLens hotspot forecasting pipeline (`ml_module.py`,
with the session-state handling of `app.py`).

The pure data manipulation of the source is embedded directly:

* `Obs` / `resampleDaily` / `clusterObs` / `forecast_hotspot_trends` embed the
  rows and the body of `forecast_hotspot_trends` in `ml_module.py`.
* Calendar timestamps are modelled as a day index plus a time of day; the
  pandas `resample('D')` call bins by the day index.
* The external statsmodels optimizer (`SARIMAX(...).fit()`) is not part of
  the repository; it is passed in as an oracle `fit`, invoked exactly with
  the configuration record built from the literal arguments of the source.
  The shape of `get_forecast` / `conf_int` (a point estimate with a
  symmetric two-sided 95 percent interval `mean ± z · se`) is modelled from
  the spec.
* Python mutation is modelled by returning the final state of the argument
  object next to the result: `forecast_hotspot_trends` copies its filtered
  input (`.copy()` in the source) before `set_index(inplace=True)`, so the
  final state of `hotspot_data` is the input itself.
-/

namespace CrimeLens

/-- Timezone-naive timestamp: a calendar day index and a time of day in
seconds.  `resample('D')` in the source floors timestamps to the day. -/
structure DateTime where
  day : Nat
  tod : Nat
deriving DecidableEq, Repr

/-- One cleaned observation row as produced by the loader and labeled by the
detector: coordinates, category, timestamp and the cluster label column. -/
structure Obs where
  latitude : ℚ
  longitude : ℚ
  crime_type : String
  datetime : DateTime
  cluster : Int
deriving DecidableEq, Repr

/-- Exception classes observable from the embedded code.  `keyError` and
`valueError` are the pandas / scikit-learn exceptions, and
`invalidParameterError` is scikit-learn's parameter-validation exception.
`invalidInputError` and `emptyClusterError` are the classes named by the
spec; they exist here only so that claims about them can be stated — the
embedded code never raises them. -/
inductive PyError where
  | keyError
  | valueError
  | invalidParameterError
  | invalidInputError
  | emptyClusterError
deriving DecidableEq, Repr

/-- The day index of every observation, in row order. -/
def daysOf (obs : List Obs) : List Nat := obs.map (fun o => o.datetime.day)

/-- Earliest calendar day among the observations (`0` for an empty list;
only used behind a non-emptiness guard, matching the pandas index min). -/
def minDay (obs : List Obs) : Nat :=
  match daysOf obs with
  | [] => 0
  | d :: ds => ds.foldl Nat.min d

/-- Latest calendar day among the observations. -/
def maxDay (obs : List Obs) : Nat :=
  match daysOf obs with
  | [] => 0
  | d :: ds => ds.foldl Nat.max d

/-- `cluster_data.resample('D').size()` of the source: one `(day, count)` bin
per calendar day from the earliest to the latest observation inclusive,
zero-filled; the empty frame resamples to the empty series. -/
def resampleDaily (obs : List Obs) : List (Nat × Nat) :=
  if obs.isEmpty then []
  else
    (List.range (maxDay obs - minDay obs + 1)).map
      (fun i => (minDay obs + i, (daysOf obs).count (minDay obs + i)))

/-- `hotspot_data[hotspot_data['cluster'] == cluster_id]` of the source. -/
def clusterObs (data : List Obs) (cluster_id : Int) : List Obs :=
  data.filter (fun o => o.cluster == cluster_id)

/-- The keyword configuration of the `SARIMAX` constructor call. -/
structure SARIMAXSpec where
  order : Nat × Nat × Nat
  seasonal_order : Nat × Nat × Nat × Nat
  enforce_stationarity : Bool
  enforce_invertibility : Bool
deriving DecidableEq, Repr

/-- The literal configuration passed by `forecast_hotspot_trends`:
`order=(1, 1, 1)`, `seasonal_order=(1, 1, 1, 7)`,
`enforce_stationarity=False`, `enforce_invertibility=False`. -/
def sarimaxSpec : SARIMAXSpec :=
  { order := (1, 1, 1)
    seasonal_order := (1, 1, 1, 7)
    enforce_stationarity := false
    enforce_invertibility := false }

/-- Modelled from the spec: a fitted model exposes, per future step, a point
forecast (`predicted_mean`) and a standard error from which `conf_int`
builds the interval.  The statsmodels implementation is external to the
repository. -/
structure SARIMAXResults where
  mean : Nat → ℚ
  se : Nat → ℚ

/-- Modelled from the spec: the two-sided 95 percent normal quantile used by
`conf_int` at the default confidence level. -/
def z95 : ℚ := 196 / 100

/-- One row of the `forecast_df` frame assembled by the source:
`{'forecast': mean, 'lower_ci': ci[:,0], 'upper_ci': ci[:,1]}`. -/
structure ForecastRow where
  forecast : ℚ
  lower_ci : ℚ
  upper_ci : ℚ
deriving DecidableEq, Repr

/-- Modelled from the spec: `results.get_forecast(steps)` with
`predicted_mean` and `conf_int()` produces, for each of the `steps` future
days, the point forecast and the symmetric two-sided interval
`mean ± z95 · se`. -/
def get_forecast_df (r : SARIMAXResults) (steps : Nat) : List ForecastRow :=
  (List.range steps).map
    (fun i =>
      { forecast := r.mean i
        lower_ci := r.mean i - z95 * r.se i
        upper_ci := r.mean i + z95 * r.se i })

/-- The external `SARIMAX(...).fit()` optimizer, as an oracle: it receives
the constructor configuration and the daily series and either converges to
a `SARIMAXResults` or fails with a numerical error message. -/
abbrev FitOracle := SARIMAXSpec → List (Nat × Nat) → Except String SARIMAXResults

/-- `forecast_hotspot_trends` of `ml_module.py`.  The first component is the
value returned to the caller (`Except.ok` since the body catches every
fitting exception and the pre-guard steps only filter and resample); the
second component is the final state of the `hotspot_data` argument, which
the source never mutates (it mutates only the `.copy()` it takes). -/
def forecast_hotspot_trends (hotspot_data : List Obs) (cluster_id : Int)
    (forecast_days : Nat) (fit : FitOracle) :
    Except PyError (Option (List (Nat × Nat)) × Option (List ForecastRow)) × List Obs :=
  let cluster_data := clusterObs hotspot_data cluster_id
  let daily_counts := resampleDaily cluster_data
  if daily_counts.length < 14 then (Except.ok (none, none), hotspot_data)
  else
    match fit sarimaxSpec daily_counts with
    | Except.ok results =>
        (Except.ok (some daily_counts, some (get_forecast_df results forecast_days)),
          hotspot_data)
    | Except.error _ => (Except.ok (none, none), hotspot_data)

/-! Concrete data used by the witness theorems. -/

/-- An observation on the given calendar day with the given cluster label. -/
def mkObs (day : Nat) (c : Int) : Obs :=
  { latitude := 0, longitude := 0, crime_type := "theft"
    datetime := { day := day, tod := 0 }, cluster := c }

/-- Three observations in cluster 0: a daily series of 3 entries. -/
def exShort : List Obs := [mkObs 0 0, mkObs 1 0, mkObs 2 0]

/-- Cluster 0 observed on days 3, 5, 5 and cluster 1 on day 9. -/
def exMulti : List Obs := [mkObs 3 0, mkObs 5 0, mkObs 5 0, mkObs 9 1]

/-- Fourteen observations in cluster 0, one per day 0..13. -/
def exFortnight : List Obs := (List.range 14).map (fun i => mkObs i 0)

/-- Only two observations, 13 calendar days apart. -/
def exSparse : List Obs := [mkObs 0 0, mkObs 13 0]

/-- Twenty observations all within the 13-day span of days 0..12. -/
def exDense : List Obs := (List.range 20).map (fun i => mkObs (i % 13) 0)

/-- An optimizer that always fails with a numerical error. -/
def fitErr : FitOracle := fun _ _ => Except.error "LinAlgError"

/-- A fitted model with constant forecast 2 and standard error 1. -/
def rOk : SARIMAXResults := { mean := fun _ => 2, se := fun _ => 1 }

/-- An optimizer that always converges to `rOk`. -/
def fitOk : FitOracle := fun _ _ => Except.ok rOk

/-! The untyped data-frame view used by the detectors of `ml_module.py`:
cells are pandas values, and a frame is a list of column names with a list
of rows. -/

/-- One pandas cell. -/
inductive Cell where
  | num (q : ℚ)
  | int (z : Int)
  | str (s : String)
  | dt (d : DateTime)
deriving DecidableEq, Repr

/-- A pandas data frame: column names and rows of cells. -/
structure Frame where
  cols : List String
  rows : List (List Cell)
deriving DecidableEq, Repr

/-- A frame is rectangular: every row has one cell per column. -/
def FrameWF (f : Frame) : Prop := ∀ r ∈ f.rows, r.length = f.cols.length

/-- Position of a column name in the column list (first match). -/
def colIdx (name : String) : List String → Nat
  | [] => 0
  | c :: cs => if c = name then 0 else colIdx name cs + 1

/-- Column lookup, `data[name]`: pandas raises `KeyError` on a missing
column name. -/
def getColIdx (f : Frame) (name : String) : Except PyError Nat :=
  if name ∈ f.cols then Except.ok (colIdx name f.cols)
  else Except.error PyError.keyError

/-- A coordinate point: one row of `data[['latitude','longitude']].values`. -/
abbrev Pt := ℚ × ℚ

/-- The numeric (latitude, longitude) pair of one row; a non-numeric cell
fails the library's array conversion with a `ValueError`. -/
def rowPoint (r : List Cell) (iLat iLon : Nat) : Except PyError Pt :=
  match r.getD iLat (Cell.str ""), r.getD iLon (Cell.str "") with
  | Cell.num la, Cell.num lo => Except.ok (la, lo)
  | _, _ => Except.error PyError.valueError

/-- The coordinate pairs of every row, in row order. -/
def rowsPoints (rows : List (List Cell)) (iLat iLon : Nat) :
    Except PyError (List Pt) :=
  match rows with
  | [] => Except.ok []
  | r :: rs =>
    match rowPoint r iLat iLon with
    | Except.ok p =>
      match rowsPoints rs iLat iLon with
      | Except.ok ps => Except.ok (p :: ps)
      | Except.error e => Except.error e
    | Except.error e => Except.error e

/-- `data[['latitude', 'longitude']].values` of the source: `KeyError` when
a coordinate column is missing, otherwise the list of coordinate pairs. -/
def framePoints (f : Frame) : Except PyError (List Pt) :=
  match getColIdx f "latitude", getColIdx f "longitude" with
  | Except.ok iLat, Except.ok iLon => rowsPoints f.rows iLat iLon
  | _, _ => Except.error PyError.keyError

/-- Squared Euclidean distance on coordinates.  Modelled from the spec: the
source delegates the haversine great-circle metric to the library; a
decidable surrogate distance stands in for it, and no claim settled here
depends on the metric's values. -/
def sqDist (p q : Pt) : ℚ := (p.1 - q.1) ^ 2 + (p.2 - q.2) ^ 2

/-- Neighborhood test at radius `eps`. -/
def inEps (eps : ℚ) (p q : Pt) : Bool := decide (sqDist p q ≤ eps ^ 2)

/-- The point at index `i` (total, with a default never reached in use). -/
def ptAt (pts : List Pt) (i : Nat) : Pt := pts.getD i (0, 0)

/-- Modelled from the spec: a point seeds a cluster when its
`eps`-neighborhood (itself included) holds at least `min_samples` points. -/
def isCore (pts : List Pt) (eps : ℚ) (min_samples : Nat) (i : Nat) : Bool :=
  min_samples ≤ (pts.filter (fun q => inEps eps (ptAt pts i) q)).length

/-- The core points within `eps` of point `i`, in scan order. -/
def coreNbrs (pts : List Pt) (eps : ℚ) (ms : Nat) (i : Nat) : List Nat :=
  (List.range pts.length).filter
    (fun j => isCore pts eps ms j && inEps eps (ptAt pts i) (ptAt pts j))

/-- One step of representative propagation: every core point adopts the
least representative among its core neighbors. -/
def repStep (pts : List Pt) (eps : ℚ) (ms : Nat) (r : List Nat) : List Nat :=
  (List.range pts.length).map
    (fun i =>
      if isCore pts eps ms i then
        (coreNbrs pts eps ms i).foldl (fun acc j => Nat.min acc (r.getD j i))
          (r.getD i i)
      else r.getD i i)

/-- Bounded iteration of a step function. -/
def iterateN {α : Type} (f : α → α) : Nat → α → α
  | 0, a => a
  | n + 1, a => iterateN f n (f a)

/-- The representative of every point after propagation has stabilised. -/
def repsOf (pts : List Pt) (eps : ℚ) (ms : Nat) : List Nat :=
  iterateN (repStep pts eps ms) pts.length (List.range pts.length)

/-- Modelled from the spec: the DBSCAN labels computed by the library —
density-connected core points share a non-negative cluster id, border
points join a neighboring core point's cluster, and every remaining point
gets the noise label `-1`. -/
def dbscanLabels (pts : List Pt) (eps : ℚ) (ms : Nat) : List Int :=
  let r := repsOf pts eps ms
  let cids :=
    (((List.range pts.length).filter (fun i => isCore pts eps ms i)).map
      (fun i => r.getD i 0)).dedup
  (List.range pts.length).map
    (fun i =>
      if isCore pts eps ms i then Int.ofNat (cids.indexOf (r.getD i 0))
      else
        match (coreNbrs pts eps ms i).head? with
        | some j => Int.ofNat (cids.indexOf (r.getD j 0))
        | none => -1)

/-- Modelled from the spec: centroid seeding from the fixed seed
`random_state=42` is deterministic; the model seeds on `k` distinct input
points. -/
def kmeansCentroids (pts : List Pt) (k : Nat) : List Pt := pts.dedup.take k

/-- Position of a point in a list of points (first match). -/
def idxOfPt (c : Pt) : List Pt → Nat
  | [] => 0
  | x :: xs => if x = c then 0 else idxOfPt c xs + 1

/-- Index of the nearest centroid: the assignment step of the library. -/
def nearestIdx (p : Pt) (cs : List Pt) : Nat :=
  match cs.argmin (fun c => sqDist p c) with
  | some c => idxOfPt c cs
  | none => 0

/-- Modelled from the spec: KMeans with a fixed seed is a deterministic
function assigning every point the index of its nearest centroid. -/
def kmeansLabels (pts : List Pt) (k : Nat) : List Nat :=
  pts.map (fun p => nearestIdx p (kmeansCentroids pts k))

/-- `DBSCAN(eps=eps, min_samples=min_samples, ...).fit(coords)`:
scikit-learn validates the estimator parameters first
(`InvalidParameterError`: `eps` must be positive and `min_samples` at
least 1), then the data array (`ValueError` on an empty table). -/
def DBSCAN_fit (pts : List Pt) (eps : ℚ) (min_samples : Nat) :
    Except PyError (List Int) :=
  if eps ≤ 0 then Except.error PyError.invalidParameterError
  else if min_samples < 1 then Except.error PyError.invalidParameterError
  else if pts.isEmpty then Except.error PyError.valueError
  else Except.ok (dbscanLabels pts eps min_samples)

/-- `KMeans(n_clusters=k, random_state=42, n_init='auto').fit(coords)`:
parameter validation first (`k` at least 1), then the data checks
(`ValueError` on an empty table or on fewer samples than clusters). -/
def KMeans_fit (pts : List Pt) (k : Nat) : Except PyError (List Nat) :=
  if k < 1 then Except.error PyError.invalidParameterError
  else if pts.isEmpty then Except.error PyError.valueError
  else if pts.length < k then Except.error PyError.valueError
  else Except.ok (kmeansLabels pts k)

/-- `data['cluster'] = labels`: pandas overwrites an existing column in
place or appends a new column on the right. -/
def setCol (f : Frame) (name : String) (vals : List Cell) : Frame :=
  if name ∈ f.cols then
    { cols := f.cols
      rows := List.zipWith (fun r v => r.set (colIdx name f.cols) v) f.rows vals }
  else
    { cols := f.cols ++ [name]
      rows := List.zipWith (fun r v => r ++ [v]) f.rows vals }

/-- `detect_hotspots_dbscan` of `ml_module.py`. -/
def detect_hotspots_dbscan (data : Frame) (eps : ℚ) (min_samples : Nat) :
    Except PyError Frame :=
  match framePoints data with
  | Except.error e => Except.error e
  | Except.ok coords =>
    match DBSCAN_fit coords eps min_samples with
    | Except.error e => Except.error e
    | Except.ok labels => Except.ok (setCol data "cluster" (labels.map Cell.int))

/-- `detect_hotspots_kmeans` of `ml_module.py`. -/
def detect_hotspots_kmeans (data : Frame) (n_clusters : Nat) :
    Except PyError Frame :=
  match framePoints data with
  | Except.error e => Except.error e
  | Except.ok coords =>
    match KMeans_fit coords n_clusters with
    | Except.error e => Except.error e
    | Except.ok labels =>
        Except.ok (setCol data "cluster" (labels.map (fun l => Cell.int (Int.ofNat l))))

/-- The cell-level predicate of `hotspot_data['cluster'] != -1`. -/
def cellNotNoise (c : Cell) : Bool :=
  match c with
  | Cell.int z => z != -1
  | _ => true

/-- The session-state update after a hotspot analysis (`app.py`):
`st.session_state.hotspot_clusters = hotspot_data[hotspot_data['cluster'] != -1]`
keeps only the rows whose cluster label is not the noise label. -/
def storeHotspots (hotspot_data : Frame) : Except PyError Frame :=
  match getColIdx hotspot_data "cluster" with
  | Except.error e => Except.error e
  | Except.ok i =>
      Except.ok
        { cols := hotspot_data.cols
          rows := hotspot_data.rows.filter
            (fun r => cellNotNoise (r.getD i (Cell.str ""))) }

/-- The integer cluster labels of a frame, in row order. -/
def clusterLabels (f : Frame) : List Int :=
  match getColIdx f "cluster" with
  | Except.error _ => []
  | Except.ok i =>
      f.rows.filterMap
        (fun r =>
          match r.getD i (Cell.str "") with
          | Cell.int z => some z
          | _ => none)

/-- `sorted(st.session_state.hotspot_clusters['cluster'].unique())` of
`app.py`: the cluster ids offered for forecasting. -/
def clusterOptions (f : Frame) : List Int :=
  ((clusterLabels f).dedup).mergeSort (fun a b => a ≤ b)

/-- A frame missing the latitude column. -/
def exNoLat : Frame := { cols := ["longitude"], rows := [[Cell.num 0]] }

/-- A well-formed coordinate frame with three distinct points. -/
def exGeo : Frame :=
  { cols := ["latitude", "longitude", "crime_type"]
    rows := [[Cell.num 0, Cell.num 0, Cell.str "theft"],
             [Cell.num 0, Cell.num 1, Cell.str "theft"],
             [Cell.num 5, Cell.num 5, Cell.str "arson"]] }

/-- An empty coordinate frame. -/
def exEmptyGeo : Frame := { cols := ["latitude", "longitude"], rows := [] }

/-- The coordinate points of `exGeo`. -/
def exGeoPts : List Pt := [(0, 0), (0, 1), (5, 5)]

/-- The labeled frame produced by the density detector on `exGeo`. -/
def exGeoOut : Frame :=
  (detect_hotspots_dbscan exGeo 1 1).toOption.getD { cols := [], rows := [] }

/-- The stored hotspot set after filtering the noise label out of
`exGeoOut`. -/
def exGeoStored : Frame :=
  (storeHotspots exGeoOut).toOption.getD { cols := [], rows := [] }

/-! Helper lemmas about day minima and maxima, and counting days in bins. -/

lemma foldl_min_le_init (l : List Nat) (a : Nat) : l.foldl Nat.min a ≤ a := by
  induction l generalizing a with
  | nil => simp
  | cons d tl ih => exact le_trans (ih (Nat.min a d)) (Nat.min_le_left a d)

lemma foldl_min_le_mem (l : List Nat) (a x : Nat) (hx : x ∈ l) :
    l.foldl Nat.min a ≤ x := by
  induction l generalizing a with
  | nil => cases hx
  | cons d tl ih =>
    rcases List.mem_cons.1 hx with h | h
    · subst h
      exact le_trans (foldl_min_le_init tl (Nat.min a x)) (Nat.min_le_right a x)
    · exact ih (Nat.min a d) h

lemma le_foldl_max_init (l : List Nat) (a : Nat) : a ≤ l.foldl Nat.max a := by
  induction l generalizing a with
  | nil => simp
  | cons d tl ih => exact le_trans (Nat.le_max_left a d) (ih (Nat.max a d))

lemma le_foldl_max_mem (l : List Nat) (a x : Nat) (hx : x ∈ l) :
    x ≤ l.foldl Nat.max a := by
  induction l generalizing a with
  | nil => cases hx
  | cons d tl ih =>
    rcases List.mem_cons.1 hx with h | h
    · subst h
      exact le_trans (Nat.le_max_right a x) (le_foldl_max_init tl (Nat.max a x))
    · exact ih (Nat.max a d) h

lemma minDay_le_of_mem (obs : List Obs) (d : Nat) (hd : d ∈ daysOf obs) :
    minDay obs ≤ d := by
  unfold minDay
  cases h : daysOf obs with
  | nil => rw [h] at hd; cases hd
  | cons d0 ds =>
    rw [h] at hd
    rcases List.mem_cons.1 hd with h1 | h1
    · subst h1; exact foldl_min_le_init ds d
    · exact foldl_min_le_mem ds d0 d h1

lemma le_maxDay_of_mem (obs : List Obs) (d : Nat) (hd : d ∈ daysOf obs) :
    d ≤ maxDay obs := by
  unfold maxDay
  cases h : daysOf obs with
  | nil => rw [h] at hd; cases hd
  | cons d0 ds =>
    rw [h] at hd
    rcases List.mem_cons.1 hd with h1 | h1
    · subst h1; exact le_foldl_max_init ds d
    · exact le_foldl_max_mem ds d0 d h1

lemma range_map_sum (n : Nat) (f : Nat → Nat) :
    ((List.range n).map f).sum = ∑ i in Finset.range n, f i := by
  induction n with
  | zero => simp
  | succ m ih =>
    rw [List.range_succ, List.map_append, List.sum_append, Finset.sum_range_succ, ih]
    simp

lemma sum_ite_day (n lo d : Nat) (h1 : lo ≤ d) (h2 : d < lo + n) :
    (∑ i in Finset.range n, if d = lo + i then 1 else 0) = 1 := by
  have hcongr : ∀ i ∈ Finset.range n,
      (if d = lo + i then (1 : Nat) else 0) = if i = d - lo then 1 else 0 := by
    intro i _
    have hiff : (d = lo + i) ↔ (i = d - lo) := by omega
    simp [hiff]
  rw [Finset.sum_congr rfl hcongr,
    Finset.sum_ite_eq' (Finset.range n) (d - lo) (fun _ => (1 : Nat))]
  exact if_pos (Finset.mem_range.2 (by omega))

lemma sum_count_eq_length (ds : List Nat) (lo n : Nat)
    (h : ∀ d ∈ ds, lo ≤ d ∧ d < lo + n) :
    (∑ i in Finset.range n, ds.count (lo + i)) = ds.length := by
  induction ds with
  | nil => simp
  | cons d tl ih =>
    have hd := h d (List.mem_cons_self d tl)
    have htl : ∀ x ∈ tl, lo ≤ x ∧ x < lo + n :=
      fun x hx => h x (List.mem_cons_of_mem d hx)
    have hcount : ∀ i, (d :: tl).count (lo + i)
        = tl.count (lo + i) + if d = lo + i then 1 else 0 := by
      intro i
      simp [List.count_cons]
    calc (∑ i in Finset.range n, (d :: tl).count (lo + i))
        = ∑ i in Finset.range n,
            (tl.count (lo + i) + if d = lo + i then 1 else 0) :=
          Finset.sum_congr rfl (fun i _ => hcount i)
      _ = (∑ i in Finset.range n, tl.count (lo + i))
            + ∑ i in Finset.range n, if d = lo + i then 1 else 0 :=
          Finset.sum_add_distrib
      _ = tl.length + 1 := by rw [ih htl, sum_ite_day n lo d hd.1 hd.2]
      _ = (d :: tl).length := by simp

lemma resampleDaily_length (obs : List Obs) (hne : obs ≠ []) :
    (resampleDaily obs).length = maxDay obs - minDay obs + 1 := by
  simp [resampleDaily, hne]

lemma day_bounds (obs : List Obs) (d : Nat) (hd : d ∈ daysOf obs) :
    minDay obs ≤ d ∧ d < minDay obs + (maxDay obs - minDay obs + 1) := by
  have h1 := minDay_le_of_mem obs d hd
  have h2 := le_maxDay_of_mem obs d hd
  omega

lemma resampleDaily_counts_sum (obs : List Obs) (hne : obs ≠ []) :
    ((resampleDaily obs).map Prod.snd).sum = obs.length := by
  have hlen : (daysOf obs).length = obs.length := List.length_map _ _
  rw [resampleDaily, if_neg (by simpa using hne)]
  rw [List.map_map]
  have : (Prod.snd ∘ fun i => (minDay obs + i, (daysOf obs).count (minDay obs + i)))
      = fun i => (daysOf obs).count (minDay obs + i) := rfl
  rw [this, range_map_sum]
  rw [sum_count_eq_length (daysOf obs) (minDay obs) (maxDay obs - minDay obs + 1)
    (fun d hd => day_bounds obs d hd)]
  exact hlen

lemma forecast_of_short (data : List Obs) (cid : Int) (hz : Nat) (fit : FitOracle)
    (hlt : (resampleDaily (clusterObs data cid)).length < 14) :
    forecast_hotspot_trends data cid hz fit = (Except.ok (none, none), data) := by
  simp [forecast_hotspot_trends, hlt]

lemma forecast_of_fit_error (data : List Obs) (cid : Int) (hz : Nat) (fit : FitOracle)
    (e : String)
    (he : fit sarimaxSpec (resampleDaily (clusterObs data cid)) = Except.error e) :
    forecast_hotspot_trends data cid hz fit = (Except.ok (none, none), data) := by
  by_cases hlt : (resampleDaily (clusterObs data cid)).length < 14
  · simp [forecast_hotspot_trends, hlt]
  · simp [forecast_hotspot_trends, hlt, he]

/-! Claim theorems. -/

/-- Claim C1: for every daily series input to the forecaster, the forecaster
returns the unavailable result `(None, None)` as a normal value — never an
exception to the caller — both when the series has fewer than 14 entries
and when the seasonal model fails with a numerical error during fitting. -/
theorem forecaster_returns_unavailable_never_throws
    (data : List Obs) (cid : Int) (hz : Nat) (fit : FitOracle) :
    ((resampleDaily (clusterObs data cid)).length < 14 →
      forecast_hotspot_trends data cid hz fit = (Except.ok (none, none), data))
    ∧ (∀ e, fit sarimaxSpec (resampleDaily (clusterObs data cid)) = Except.error e →
      forecast_hotspot_trends data cid hz fit = (Except.ok (none, none), data)) :=
  ⟨fun hlt => forecast_of_short data cid hz fit hlt,
   fun e he => forecast_of_fit_error data cid hz fit e he⟩

/-- Witness for C1: a 3-day series hits the minimum-data guard, and a
14-day series whose fit raises a numerical error is caught; both return
the unavailable result. -/
theorem forecaster_returns_unavailable_never_throws_witness :
    forecast_hotspot_trends exShort 0 30 fitErr = (Except.ok (none, none), exShort)
    ∧ forecast_hotspot_trends exFortnight 0 30 fitErr
        = (Except.ok (none, none), exFortnight) :=
  ⟨(forecaster_returns_unavailable_never_throws exShort 0 30 fitErr).1 (by decide),
   (forecaster_returns_unavailable_never_throws exFortnight 0 30 fitErr).2
     "LinAlgError" rfl⟩

/-- Claim C2: for every non-empty cluster, the daily series has exactly one
entry per calendar day from the earliest to the latest observation day
inclusive (zero-filled), so its length is `max - min + 1` and its counts
sum to the number of observations in the cluster. -/
theorem daily_series_spans_and_sums (data : List Obs) (cid : Int)
    (hne : clusterObs data cid ≠ []) :
    (resampleDaily (clusterObs data cid)).length
        = maxDay (clusterObs data cid) - minDay (clusterObs data cid) + 1
    ∧ (resampleDaily (clusterObs data cid)).map Prod.fst
        = (List.range (maxDay (clusterObs data cid) - minDay (clusterObs data cid) + 1)).map
            (fun i => minDay (clusterObs data cid) + i)
    ∧ ((resampleDaily (clusterObs data cid)).map Prod.snd).sum
        = (clusterObs data cid).length := by
  refine ⟨resampleDaily_length _ hne, ?_, resampleDaily_counts_sum _ hne⟩
  rw [resampleDaily, if_neg (by simpa using hne), List.map_map]
  rfl

/-- Witness for C2: cluster 0 of `exMulti` spans days 3..5 with counts
summing to its 3 observations. -/
theorem daily_series_spans_and_sums_witness :
    (resampleDaily (clusterObs exMulti 0)).length
        = maxDay (clusterObs exMulti 0) - minDay (clusterObs exMulti 0) + 1
    ∧ (resampleDaily (clusterObs exMulti 0)).map Prod.fst
        = (List.range (maxDay (clusterObs exMulti 0) - minDay (clusterObs exMulti 0) + 1)).map
            (fun i => minDay (clusterObs exMulti 0) + i)
    ∧ ((resampleDaily (clusterObs exMulti 0)).map Prod.snd).sum
        = (clusterObs exMulti 0).length :=
  daily_series_spans_and_sums exMulti 0 (by decide)

/-- Claim C3 as stated is false on the code: requesting a label carried by
no observation does not raise an `EmptyClusterError` (no such class exists
in the repository); the call returns the normal unavailable result.
Counterexample: `exMulti` has no observation in cluster 5. -/
theorem empty_cluster_returns_ok_not_error :
    (forecast_hotspot_trends exMulti 5 30 fitErr).1 = Except.ok (none, none)
    ∧ (forecast_hotspot_trends exMulti 5 30 fitErr).1
        ≠ Except.error PyError.emptyClusterError := by
  constructor
  · rfl
  · intro hc
    rw [show (forecast_hotspot_trends exMulti 5 30 fitErr).1
        = Except.ok (none, none) from rfl] at hc
    exact Except.noConfusion hc

/-- Claim C3, amended: for every labeled table and requested label carried
by no observation, the forecaster returns the unavailable `(None, None)`
result (the empty cluster resamples to an empty series and fails the
minimum-data guard); no exception is raised. -/
theorem empty_cluster_returns_unavailable (data : List Obs) (cid : Int)
    (hz : Nat) (fit : FitOracle) (hempty : ∀ o ∈ data, o.cluster ≠ cid) :
    forecast_hotspot_trends data cid hz fit = (Except.ok (none, none), data) := by
  have hnil : clusterObs data cid = [] := by
    refine List.filter_eq_nil_iff.2 ?_
    intro o ho
    simpa using hempty o ho
  refine forecast_of_short data cid hz fit ?_
  rw [hnil]
  simp [resampleDaily]

/-- Witness for the amended C3: no observation of `exShort` is in
cluster 7. -/
theorem empty_cluster_returns_unavailable_witness :
    forecast_hotspot_trends exShort 7 30 fitErr = (Except.ok (none, none), exShort) :=
  empty_cluster_returns_unavailable exShort 7 30 fitErr (by decide)

/-- Claim C6: whenever the series passes the guard and the fit converges,
the forecast frame has exactly `h` rows, each with
`lower_ci ≤ forecast ≤ upper_ci` (standard errors are non-negative). -/
theorem forecast_success_shape (data : List Obs) (cid : Int) (hz : Nat)
    (fit : FitOracle) (r : SARIMAXResults)
    (hlen : ¬ (resampleDaily (clusterObs data cid)).length < 14)
    (hfit : fit sarimaxSpec (resampleDaily (clusterObs data cid)) = Except.ok r)
    (hse : ∀ i, 0 ≤ r.se i) (_hpos : 0 < hz) :
    (forecast_hotspot_trends data cid hz fit).1
        = Except.ok (some (resampleDaily (clusterObs data cid)),
            some (get_forecast_df r hz))
    ∧ (get_forecast_df r hz).length = hz
    ∧ ∀ row ∈ get_forecast_df r hz,
        row.lower_ci ≤ row.forecast ∧ row.forecast ≤ row.upper_ci := by
  refine ⟨?_, ?_, ?_⟩
  · simp [forecast_hotspot_trends, hlen, hfit]
  · simp [get_forecast_df]
  · intro row hrow
    rcases List.mem_map.1 hrow with ⟨i, _, rfl⟩
    have hz95 : (0 : ℚ) ≤ z95 := by norm_num [z95]
    have hterm : (0 : ℚ) ≤ z95 * r.se i := mul_nonneg hz95 (hse i)
    constructor
    · exact sub_le_self _ hterm
    · exact le_add_of_nonneg_right hterm

/-- Witness for C6: a 14-day series with a converging fit and horizon 7. -/
theorem forecast_success_shape_witness :
    (forecast_hotspot_trends exFortnight 0 7 fitOk).1
        = Except.ok (some (resampleDaily (clusterObs exFortnight 0)),
            some (get_forecast_df rOk 7))
    ∧ (get_forecast_df rOk 7).length = 7
    ∧ ∀ row ∈ get_forecast_df rOk 7,
        row.lower_ci ≤ row.forecast ∧ row.forecast ≤ row.upper_ci :=
  forecast_success_shape exFortnight 0 7 fitOk rOk (by decide) rfl
    (fun _ => by norm_num [rOk]) (by norm_num)

/-- Claim C7: the fitted model is configured with non-seasonal order
(1,1,1), seasonal order (1,1,1) at period 7, and relaxed stationarity and
invertibility enforcement; and the forecaster consults the optimizer only
at this configuration, so any two optimizers agreeing there produce the
same result. -/
theorem sarimax_weekly_config :
    sarimaxSpec.order = (1, 1, 1)
    ∧ sarimaxSpec.seasonal_order = (1, 1, 1, 7)
    ∧ sarimaxSpec.enforce_stationarity = false
    ∧ sarimaxSpec.enforce_invertibility = false
    ∧ ∀ (data : List Obs) (cid : Int) (hz : Nat) (fitA fitB : FitOracle),
        fitA sarimaxSpec = fitB sarimaxSpec →
        forecast_hotspot_trends data cid hz fitA
          = forecast_hotspot_trends data cid hz fitB := by
  refine ⟨rfl, rfl, rfl, rfl, ?_⟩
  intro data cid hz fitA fitB hagree
  unfold forecast_hotspot_trends
  rw [hagree]

/-- Witness for C7: an always-failing optimizer and one that inspects the
configuration but fails on the relaxed-enforcement configuration agree at
`sarimaxSpec`, so the forecaster cannot distinguish them. -/
theorem sarimax_weekly_config_witness :
    forecast_hotspot_trends exFortnight 0 7 fitErr
      = forecast_hotspot_trends exFortnight 0 7
          (fun s d => if s.enforce_stationarity then Except.ok rOk else fitErr s d) :=
  sarimax_weekly_config.2.2.2.2 exFortnight 0 7 fitErr
    (fun s d => if s.enforce_stationarity then Except.ok rOk else fitErr s d)
    (by funext d; rfl)

/-- Claim C10: the minimum-data guard counts zero-filled calendar days
spanned, not observations: a cluster whose first and last observations are
at least 13 days apart passes the guard however few its observations,
while a cluster spanning fewer than 14 calendar days returns the
unavailable result however many observations it contains. -/
theorem guard_counts_spanned_days (data : List Obs) (cid : Int)
    (hne : clusterObs data cid ≠ []) :
    (13 ≤ maxDay (clusterObs data cid) - minDay (clusterObs data cid) →
      ¬ (resampleDaily (clusterObs data cid)).length < 14)
    ∧ (maxDay (clusterObs data cid) - minDay (clusterObs data cid) + 1 < 14 →
      ∀ (hz : Nat) (fit : FitOracle),
        forecast_hotspot_trends data cid hz fit = (Except.ok (none, none), data)) := by
  have hlen := resampleDaily_length _ hne
  constructor
  · intro hspan
    omega
  · intro hspan hz fit
    exact forecast_of_short data cid hz fit (by omega)

/-- Witness for C10: two observations 13 days apart pass the guard; twenty
observations within a 13-day span are refused. -/
theorem guard_counts_spanned_days_witness :
    (¬ (resampleDaily (clusterObs exSparse 0)).length < 14)
    ∧ forecast_hotspot_trends exDense 0 7 fitErr = (Except.ok (none, none), exDense) :=
  ⟨(guard_counts_spanned_days exSparse 0 (by decide)).1 (by decide),
   (guard_counts_spanned_days exDense 0 (by decide)).2 (by decide) 7 fitErr⟩

/-! Helper lemmas for the detectors. -/

lemma framePoints_missing (f : Frame)
    (h : "latitude" ∉ f.cols ∨ "longitude" ∉ f.cols) :
    framePoints f = Except.error PyError.keyError := by
  unfold framePoints getColIdx
  rcases h with h | h
  · simp [h]
  · by_cases h2 : "latitude" ∈ f.cols <;> simp [h, h2]

lemma rowsPoints_length (rows : List (List Cell)) (iLat iLon : Nat)
    (pts : List Pt) (h : rowsPoints rows iLat iLon = Except.ok pts) :
    pts.length = rows.length := by
  induction rows generalizing pts with
  | nil =>
    unfold rowsPoints at h
    cases h
    rfl
  | cons r rs ih =>
    unfold rowsPoints at h
    cases hp : rowPoint r iLat iLon with
    | error e => rw [hp] at h; cases h
    | ok p =>
      rw [hp] at h
      cases hps : rowsPoints rs iLat iLon with
      | error e => rw [hps] at h; cases h
      | ok ps =>
        rw [hps] at h
        cases h
        simp [ih ps hps]

lemma framePoints_length (f : Frame) (pts : List Pt)
    (h : framePoints f = Except.ok pts) : pts.length = f.rows.length := by
  unfold framePoints at h
  cases h1 : getColIdx f "latitude" with
  | error e => rw [h1] at h; cases h
  | ok iLat =>
    cases h2 : getColIdx f "longitude" with
    | error e => rw [h1, h2] at h; cases h
    | ok iLon =>
      rw [h1, h2] at h
      exact rowsPoints_length f.rows iLat iLon pts h

lemma DBSCAN_fit_ok (pts : List Pt) (eps : ℚ) (ms : Nat) (labs : List Int)
    (h : DBSCAN_fit pts eps ms = Except.ok labs) :
    labs = dbscanLabels pts eps ms := by
  unfold DBSCAN_fit at h
  split_ifs at h
  cases h
  rfl

lemma KMeans_fit_ok (pts : List Pt) (k : Nat) (labs : List Nat)
    (h : KMeans_fit pts k = Except.ok labs) :
    labs = kmeansLabels pts k := by
  unfold KMeans_fit at h
  split_ifs at h
  cases h
  rfl

lemma detect_dbscan_ok (f : Frame) (eps : ℚ) (ms : Nat) (out : Frame)
    (h : detect_hotspots_dbscan f eps ms = Except.ok out) :
    ∃ pts, framePoints f = Except.ok pts
      ∧ out = setCol f "cluster" ((dbscanLabels pts eps ms).map Cell.int) := by
  unfold detect_hotspots_dbscan at h
  cases hp : framePoints f with
  | error e => rw [hp] at h; cases h
  | ok pts =>
    rw [hp] at h
    dsimp only at h
    cases hf : DBSCAN_fit pts eps ms with
    | error e => rw [hf] at h; cases h
    | ok labs =>
      rw [hf] at h
      dsimp only at h
      cases h
      exact ⟨pts, rfl, by rw [DBSCAN_fit_ok pts eps ms labs hf]⟩

lemma detect_kmeans_ok (f : Frame) (k : Nat) (out : Frame)
    (h : detect_hotspots_kmeans f k = Except.ok out) :
    ∃ pts, framePoints f = Except.ok pts
      ∧ out = setCol f "cluster"
          ((kmeansLabels pts k).map (fun l => Cell.int (Int.ofNat l))) := by
  unfold detect_hotspots_kmeans at h
  cases hp : framePoints f with
  | error e => rw [hp] at h; cases h
  | ok pts =>
    rw [hp] at h
    dsimp only at h
    cases hf : KMeans_fit pts k with
    | error e => rw [hf] at h; cases h
    | ok labs =>
      rw [hf] at h
      dsimp only at h
      cases h
      exact ⟨pts, rfl, by rw [KMeans_fit_ok pts k labs hf]⟩

/-! Claim C4: corrected error taxonomy of the detectors. -/

/-- Claim C4 as stated is false on the code: the detectors perform no
validation of their own, so a frame lacking a coordinate column fails with
the pandas `KeyError`, not with an `InvalidInputError` (no such class
exists in the repository). -/
theorem detector_missing_column_key_error :
    detect_hotspots_dbscan exNoLat (1 / 100) 5 = Except.error PyError.keyError
    ∧ PyError.keyError ≠ PyError.invalidInputError := by
  constructor
  · rfl
  · intro hc
    cases hc

/-- Claim C4, amended: each invalid input does abort the detector, but with
the underlying libraries' exceptions — `KeyError` for a missing coordinate
column, scikit-learn's `InvalidParameterError` for a non-positive `eps`,
`min_samples` or `k`, and `ValueError` for an empty table. -/
theorem detector_error_conditions :
    (∀ (f : Frame) (eps : ℚ) (ms : Nat),
      ("latitude" ∉ f.cols ∨ "longitude" ∉ f.cols) →
      detect_hotspots_dbscan f eps ms = Except.error PyError.keyError)
    ∧ (∀ (f : Frame) (eps : ℚ) (ms : Nat) (pts : List Pt),
      framePoints f = Except.ok pts → eps ≤ 0 →
      detect_hotspots_dbscan f eps ms = Except.error PyError.invalidParameterError)
    ∧ (∀ (f : Frame) (eps : ℚ) (pts : List Pt),
      framePoints f = Except.ok pts → 0 < eps →
      detect_hotspots_dbscan f eps 0 = Except.error PyError.invalidParameterError)
    ∧ (∀ (f : Frame) (eps : ℚ) (ms : Nat),
      framePoints f = Except.ok [] → 0 < eps → 1 ≤ ms →
      detect_hotspots_dbscan f eps ms = Except.error PyError.valueError)
    ∧ (∀ (f : Frame) (k : Nat),
      ("latitude" ∉ f.cols ∨ "longitude" ∉ f.cols) →
      detect_hotspots_kmeans f k = Except.error PyError.keyError)
    ∧ (∀ (f : Frame) (pts : List Pt),
      framePoints f = Except.ok pts →
      detect_hotspots_kmeans f 0 = Except.error PyError.invalidParameterError)
    ∧ (∀ (f : Frame) (k : Nat),
      framePoints f = Except.ok [] → 1 ≤ k →
      detect_hotspots_kmeans f k = Except.error PyError.valueError) := by
  refine ⟨?_, ?_, ?_, ?_, ?_, ?_, ?_⟩
  · intro f eps ms h
    unfold detect_hotspots_dbscan
    rw [framePoints_missing f h]
  · intro f eps ms pts hpts hle
    unfold detect_hotspots_dbscan
    rw [hpts]
    simp [DBSCAN_fit, hle]
  · intro f eps pts hpts hpos
    unfold detect_hotspots_dbscan
    rw [hpts]
    simp [DBSCAN_fit, not_le.2 hpos]
  · intro f eps ms hpts hpos hms
    unfold detect_hotspots_dbscan
    rw [hpts]
    simp [DBSCAN_fit, not_le.2 hpos, Nat.not_lt.2 hms]
  · intro f k h
    unfold detect_hotspots_kmeans
    rw [framePoints_missing f h]
  · intro f pts hpts
    unfold detect_hotspots_kmeans
    rw [hpts]
    simp [KMeans_fit]
  · intro f k hpts hk
    unfold detect_hotspots_kmeans
    rw [hpts]
    simp [KMeans_fit, Nat.not_lt.2 hk]

/-- Witness for the amended C4: the empty coordinate frame fails with
`ValueError` under valid parameters, and `k = 0` fails with
`InvalidParameterError`. -/
theorem detector_error_conditions_witness :
    detect_hotspots_dbscan exEmptyGeo 1 5 = Except.error PyError.valueError
    ∧ detect_hotspots_kmeans exEmptyGeo 0 = Except.error PyError.invalidParameterError :=
  ⟨detector_error_conditions.2.2.2.1 exEmptyGeo 1 5 rfl (by norm_num) (by norm_num),
   detector_error_conditions.2.2.2.2.2.1 exEmptyGeo [] rfl⟩

/-! Helper lemmas for the partition-mode clustering. -/

lemma sqDist_nonneg (p q : Pt) : 0 ≤ sqDist p q := by
  unfold sqDist
  positivity

lemma sqDist_self (p : Pt) : sqDist p p = 0 := by
  simp [sqDist]

lemma eq_of_sqDist_eq_zero : ∀ p q : Pt, sqDist p q = 0 → q = p := by
  rintro ⟨px, py⟩ ⟨qx, qy⟩ h
  unfold sqDist at h
  dsimp only at h
  have h1 : (px - qx) ^ 2 = 0 := by
    nlinarith [sq_nonneg (px - qx), sq_nonneg (py - qy)]
  have h2 : (py - qy) ^ 2 = 0 := by
    nlinarith [sq_nonneg (px - qx), sq_nonneg (py - qy)]
  have e1 : px = qx := sub_eq_zero.1 (sq_eq_zero_iff.1 h1)
  have e2 : py = qy := sub_eq_zero.1 (sq_eq_zero_iff.1 h2)
  rw [Prod.mk.injEq]
  exact ⟨e1.symm, e2.symm⟩

lemma idxOfPt_lt_length (c : Pt) (cs : List Pt) (h : c ∈ cs) :
    idxOfPt c cs < cs.length := by
  induction cs with
  | nil => cases h
  | cons x xs ih =>
    unfold idxOfPt
    by_cases hx : x = c
    · simp [hx]
    · rcases List.mem_cons.1 h with h1 | h1
      · exact absurd h1.symm hx
      · have := ih h1
        simp only [if_neg hx, List.length_cons]
        omega

lemma idxOfPt_get (cs : List Pt) (hnd : cs.Nodup) (j : Fin cs.length) :
    idxOfPt (cs.get j) cs = j := by
  induction cs with
  | nil => exact absurd j.isLt (by simp)
  | cons x xs ih =>
    rcases j with ⟨jv, hjv⟩
    cases jv with
    | zero =>
      unfold idxOfPt
      simp
    | succ n =>
      have hn : n < xs.length := by simpa using hjv
      have hget : (x :: xs).get ⟨n + 1, hjv⟩ = xs.get ⟨n, hn⟩ := rfl
      unfold idxOfPt
      rw [hget]
      have hx : ¬ x = xs.get ⟨n, hn⟩ := by
        intro hEq
        have hmem : xs.get ⟨n, hn⟩ ∈ xs := xs.get_mem _ _
        rw [← hEq] at hmem
        exact (List.nodup_cons.1 hnd).1 hmem
      rw [if_neg hx, ih (List.nodup_cons.1 hnd).2 ⟨n, hn⟩]

lemma nearestIdx_lt_length (p : Pt) (cs : List Pt) (hne : cs ≠ []) :
    nearestIdx p cs < cs.length := by
  unfold nearestIdx
  cases h : cs.argmin (fun c => sqDist p c) with
  | none => exact absurd (List.argmin_eq_none.1 h) hne
  | some c =>
    dsimp only
    exact idxOfPt_lt_length c cs (List.argmin_mem h)

lemma nearestIdx_get (cs : List Pt) (hnd : cs.Nodup) (j : Fin cs.length) :
    nearestIdx (cs.get j) cs = j := by
  unfold nearestIdx
  cases h : cs.argmin (fun c => sqDist (cs.get j) c) with
  | none =>
    exfalso
    have hnil : cs = [] := List.argmin_eq_none.1 h
    subst hnil
    exact absurd j.isLt (by simp)
  | some c =>
    dsimp only
    have hle : sqDist (cs.get j) c ≤ sqDist (cs.get j) (cs.get j) :=
      List.le_of_mem_argmin (cs.get_mem _ _) h
    rw [sqDist_self] at hle
    have h0 : sqDist (cs.get j) c = 0 := le_antisymm hle (sqDist_nonneg _ _)
    rw [eq_of_sqDist_eq_zero _ _ h0]
    exact idxOfPt_get cs hnd j

lemma kmeansCentroids_nodup (pts : List Pt) (k : Nat) :
    (kmeansCentroids pts k).Nodup :=
  (List.nodup_dedup pts).sublist (List.take_sublist k pts.dedup)

lemma kmeansCentroids_length (pts : List Pt) (k : Nat)
    (h : k ≤ pts.dedup.length) : (kmeansCentroids pts k).length = k := by
  unfold kmeansCentroids
  rw [List.length_take]
  exact Nat.min_eq_left h

lemma kmeansCentroids_mem (pts : List Pt) (k : Nat) (c : Pt)
    (h : c ∈ kmeansCentroids pts k) : c ∈ pts :=
  List.mem_dedup.1 ((List.take_sublist k pts.dedup).subset h)

/-- Claim C5: with at least `k` distinct points, partition-mode clustering
produces exactly the labels `0..k-1` (so exactly `k` clusters and no `-1`),
and — the seeding being a deterministic function of the fixed seed — two
runs on identical input and parameters give identical results. -/
theorem kmeans_exactly_k_deterministic (f : Frame) (k : Nat) (pts : List Pt)
    (hpts : framePoints f = Except.ok pts) (hk : 1 ≤ k)
    (hdist : k ≤ pts.dedup.length) :
    detect_hotspots_kmeans f k
        = Except.ok (setCol f "cluster"
            ((kmeansLabels pts k).map (fun l => Cell.int (Int.ofNat l))))
    ∧ (kmeansLabels pts k).toFinset = Finset.range k
    ∧ detect_hotspots_kmeans f k = detect_hotspots_kmeans f k := by
  have hlenk : k ≤ pts.length := le_trans hdist (List.dedup_sublist pts).length_le
  have hne : pts ≠ [] := by
    intro hnil
    rw [hnil] at hlenk
    simp at hlenk
    omega
  have hcs_len : (kmeansCentroids pts k).length = k := kmeansCentroids_length pts k hdist
  have hcs_ne : kmeansCentroids pts k ≠ [] := by
    intro hnil
    rw [hnil] at hcs_len
    simp at hcs_len
    omega
  refine ⟨?_, ?_, rfl⟩
  · unfold detect_hotspots_kmeans
    rw [hpts]
    dsimp only
    have h1 : ¬ k < 1 := by omega
    have h2 : pts.isEmpty = false := by
      cases pts with
      | nil => exact absurd rfl hne
      | cons a l => rfl
    have h3 : ¬ pts.length < k := Nat.not_lt.2 hlenk
    simp [KMeans_fit, h1, h2, h3]
  · ext j
    simp only [List.mem_toFinset, Finset.mem_range, kmeansLabels, List.mem_map]
    constructor
    · rintro ⟨p, _, rfl⟩
      have := nearestIdx_lt_length p (kmeansCentroids pts k) hcs_ne
      omega
    · intro hj
      have hj2 : j < (kmeansCentroids pts k).length := by omega
      refine ⟨(kmeansCentroids pts k).get ⟨j, hj2⟩, ?_, ?_⟩
      · exact kmeansCentroids_mem pts k _ (List.get_mem _ _ _)
      · have := nearestIdx_get (kmeansCentroids pts k)
          (kmeansCentroids_nodup pts k) ⟨j, hj2⟩
        simpa using this

/-- Witness for C5: three distinct points, `k = 2`. -/
theorem kmeans_exactly_k_deterministic_witness :
    detect_hotspots_kmeans exGeo 2
        = Except.ok (setCol exGeo "cluster"
            ((kmeansLabels exGeoPts 2).map (fun l => Cell.int (Int.ofNat l))))
    ∧ (kmeansLabels exGeoPts 2).toFinset = Finset.range 2
    ∧ detect_hotspots_kmeans exGeo 2 = detect_hotspots_kmeans exGeo 2 :=
  kmeans_exactly_k_deterministic exGeo 2 exGeoPts rfl (by norm_num) (by decide)

/-! Helper lemmas for the label column and the stored hotspot set. -/

lemma colIdx_concat_self (l : List String) (name : String) (h : name ∉ l) :
    colIdx name (l ++ [name]) = l.length := by
  induction l with
  | nil => simp [colIdx]
  | cons c cs ih =>
    have hne : ¬ c = name := by
      intro hEq
      subst hEq
      exact h (List.mem_cons_self _ _)
    simp only [List.cons_append, colIdx, if_neg hne, List.length_cons,
      List.append_eq]
    rw [ih (fun hm => h (List.mem_cons_of_mem c hm))]

lemma mem_zipWith {α β γ : Type} (g : α → β → γ) (l1 : List α) (l2 : List β)
    (c : γ) (h : c ∈ List.zipWith g l1 l2) : ∃ a ∈ l1, ∃ b ∈ l2, c = g a b := by
  induction l1 generalizing l2 with
  | nil => simp at h
  | cons x xs ih =>
    cases l2 with
    | nil => simp at h
    | cons y ys =>
      rcases List.mem_cons.1 h with h1 | h1
      · exact ⟨x, List.mem_cons_self _ _, y, List.mem_cons_self _ _, h1⟩
      · rcases ih ys h1 with ⟨a, ha, b, hb, rfl⟩
        exact ⟨a, List.mem_cons_of_mem _ ha, b, List.mem_cons_of_mem _ hb, rfl⟩

lemma getD_concat (r : List Cell) (v : Cell) :
    (r ++ [v]).getD r.length (Cell.str "") = v := by
  induction r with
  | nil => rfl
  | cons x xs ih => simp [ih]

lemma setCol_new (f : Frame) (name : String) (vals : List Cell)
    (h : name ∉ f.cols) :
    setCol f name vals
      = { cols := f.cols ++ [name]
          rows := List.zipWith (fun r v => r ++ [v]) f.rows vals } := by
  simp [setCol, h]

lemma stored_labels_mem (f : Frame) (labs : List Int) (stored : Frame)
    (hwf : FrameWF f) (hnc : "cluster" ∉ f.cols)
    (hstore : storeHotspots (setCol f "cluster" (labs.map Cell.int))
        = Except.ok stored) :
    ∀ z ∈ clusterLabels stored, z ∈ labs ∧ z ≠ -1 := by
  rw [setCol_new f "cluster" _ hnc] at hstore
  have hmem : "cluster" ∈ f.cols ++ ["cluster"] := by simp
  have hidx : colIdx "cluster" (f.cols ++ ["cluster"]) = f.cols.length :=
    colIdx_concat_self _ _ hnc
  unfold storeHotspots getColIdx at hstore
  dsimp only at hstore
  rw [if_pos hmem] at hstore
  dsimp only at hstore
  injection hstore with hstore
  subst hstore
  intro z hz
  unfold clusterLabels getColIdx at hz
  dsimp only at hz
  rw [if_pos hmem] at hz
  dsimp only at hz
  rcases List.mem_filterMap.1 hz with ⟨row, hrow, hzrow⟩
  rcases List.mem_filter.1 hrow with ⟨hrow_mem, hkeep⟩
  rcases mem_zipWith _ _ _ _ hrow_mem with ⟨r, hr, v, hv, rfl⟩
  rcases List.mem_map.1 hv with ⟨l, hl, rfl⟩
  have hrl : r.length = f.cols.length := hwf r hr
  have hcell : (r ++ [Cell.int l]).getD
      (colIdx "cluster" (f.cols ++ ["cluster"])) (Cell.str "") = Cell.int l := by
    rw [hidx, ← hrl]
    exact getD_concat r _
  rw [hcell] at hzrow
  dsimp only at hzrow
  injection hzrow with hzl
  subst hzl
  refine ⟨hl, ?_⟩
  rw [hcell] at hkeep
  unfold cellNotNoise at hkeep
  dsimp only at hkeep
  exact bne_iff_ne.1 hkeep

lemma stored_all_nonneg (f : Frame) (labs : List Int) (stored : Frame)
    (hwf : FrameWF f) (hnc : "cluster" ∉ f.cols)
    (hstore : storeHotspots (setCol f "cluster" (labs.map Cell.int))
        = Except.ok stored)
    (hge : ∀ l ∈ labs, -1 ≤ l) :
    (∀ z ∈ clusterLabels stored, 0 ≤ z)
    ∧ (∀ z ∈ clusterOptions stored, 0 ≤ z) := by
  have hmain := stored_labels_mem f labs stored hwf hnc hstore
  have hlab : ∀ z ∈ clusterLabels stored, 0 ≤ z := by
    intro z hz
    have h1 := hmain z hz
    have h2 := hge z h1.1
    have h3 := h1.2
    omega
  refine ⟨hlab, ?_⟩
  intro z hz
  unfold clusterOptions at hz
  exact hlab z (List.mem_dedup.1 (List.mem_mergeSort.1 hz))

lemma dbscanLabels_ge (pts : List Pt) (eps : ℚ) (ms : Nat) :
    ∀ l ∈ dbscanLabels pts eps ms, -1 ≤ l := by
  intro l hl
  simp only [dbscanLabels] at hl
  rcases List.mem_map.1 hl with ⟨i, _, rfl⟩
  split
  · exact le_trans (by norm_num) (Int.ofNat_nonneg _)
  · split
    · exact le_trans (by norm_num) (Int.ofNat_nonneg _)
    · exact le_refl (-1)

lemma dbscanLabels_length (pts : List Pt) (eps : ℚ) (ms : Nat) :
    (dbscanLabels pts eps ms).length = pts.length := by
  simp [dbscanLabels]

lemma kmeansLabels_length (pts : List Pt) (k : Nat) :
    (kmeansLabels pts k).length = pts.length := by
  simp [kmeansLabels]

/-- Claim C8: after every hotspot analysis the stored hotspot set contains
no observation labeled `-1` — every stored label, and every cluster id
offered for forecasting, is non-negative. -/
theorem stored_hotspots_never_noise :
    (∀ (f : Frame) (eps : ℚ) (ms : Nat) (out stored : Frame),
      FrameWF f → "cluster" ∉ f.cols →
      detect_hotspots_dbscan f eps ms = Except.ok out →
      storeHotspots out = Except.ok stored →
      (∀ z ∈ clusterLabels stored, 0 ≤ z)
      ∧ (∀ z ∈ clusterOptions stored, 0 ≤ z))
    ∧ (∀ (f : Frame) (k : Nat) (out stored : Frame),
      FrameWF f → "cluster" ∉ f.cols →
      detect_hotspots_kmeans f k = Except.ok out →
      storeHotspots out = Except.ok stored →
      (∀ z ∈ clusterLabels stored, 0 ≤ z)
      ∧ (∀ z ∈ clusterOptions stored, 0 ≤ z)) := by
  constructor
  · intro f eps ms out stored hwf hnc hdet hstore
    rcases detect_dbscan_ok f eps ms out hdet with ⟨pts, _, rfl⟩
    exact stored_all_nonneg f (dbscanLabels pts eps ms) stored hwf hnc hstore
      (dbscanLabels_ge pts eps ms)
  · intro f k out stored hwf hnc hdet hstore
    rcases detect_kmeans_ok f k out hdet with ⟨pts, _, rfl⟩
    have hmap : (kmeansLabels pts k).map (fun l => Cell.int (Int.ofNat l))
        = ((kmeansLabels pts k).map Int.ofNat).map Cell.int := by
      rw [List.map_map]
      rfl
    rw [hmap] at hstore
    refine stored_all_nonneg f ((kmeansLabels pts k).map Int.ofNat) stored hwf hnc
      hstore ?_
    intro l hlmem
    rcases List.mem_map.1 hlmem with ⟨n, _, rfl⟩
    exact le_trans (by norm_num) (Int.ofNat_nonneg n)

/-- Witness for C8: the stored hotspot set of the density run on `exGeo`
has only non-negative labels and offers only non-negative cluster ids. -/
theorem stored_hotspots_never_noise_witness :
    (∀ z ∈ clusterLabels exGeoStored, 0 ≤ z)
    ∧ (∀ z ∈ clusterOptions exGeoStored, 0 ≤ z) :=
  stored_hotspots_never_noise.1 exGeo 1 1 exGeoOut exGeoStored
    (by unfold FrameWF; decide) (by decide) (by rfl) (by rfl)

/-- Claim C9: each pipeline stage leaves its input unchanged except for the
detector's additive cluster-label column — the detectors append exactly one
label cell to each row, preserving every pre-existing column, row and the
row order, and the forecaster leaves its input table entirely unmodified. -/
theorem stages_preserve_input :
    (∀ (f : Frame) (eps : ℚ) (ms : Nat) (out : Frame),
      "cluster" ∉ f.cols →
      detect_hotspots_dbscan f eps ms = Except.ok out →
      out.cols = f.cols ++ ["cluster"]
      ∧ out.rows.length = f.rows.length
      ∧ ∃ labs : List Cell, labs.length = f.rows.length
          ∧ out.rows = List.zipWith (fun r c => r ++ [c]) f.rows labs)
    ∧ (∀ (f : Frame) (k : Nat) (out : Frame),
      "cluster" ∉ f.cols →
      detect_hotspots_kmeans f k = Except.ok out →
      out.cols = f.cols ++ ["cluster"]
      ∧ out.rows.length = f.rows.length
      ∧ ∃ labs : List Cell, labs.length = f.rows.length
          ∧ out.rows = List.zipWith (fun r c => r ++ [c]) f.rows labs)
    ∧ ∀ (data : List Obs) (cid : Int) (hz : Nat) (fit : FitOracle),
      (forecast_hotspot_trends data cid hz fit).2 = data := by
  refine ⟨?_, ?_, ?_⟩
  · intro f eps ms out hnc hdet
    rcases detect_dbscan_ok f eps ms out hdet with ⟨pts, hpts, rfl⟩
    rw [setCol_new f "cluster" _ hnc]
    have hlen : ((dbscanLabels pts eps ms).map Cell.int).length = f.rows.length := by
      rw [List.length_map, dbscanLabels_length]
      exact framePoints_length f pts hpts
    refine ⟨rfl, ?_, (dbscanLabels pts eps ms).map Cell.int, hlen, rfl⟩
    dsimp only
    rw [List.length_zipWith, hlen, Nat.min_self]
  · intro f k out hnc hdet
    rcases detect_kmeans_ok f k out hdet with ⟨pts, hpts, rfl⟩
    rw [setCol_new f "cluster" _ hnc]
    have hlen : ((kmeansLabels pts k).map (fun l => Cell.int (Int.ofNat l))).length
        = f.rows.length := by
      rw [List.length_map, kmeansLabels_length]
      exact framePoints_length f pts hpts
    refine ⟨rfl, ?_, (kmeansLabels pts k).map (fun l => Cell.int (Int.ofNat l)),
      hlen, rfl⟩
    dsimp only
    rw [List.length_zipWith, hlen, Nat.min_self]
  · intro data cid hz fit
    unfold forecast_hotspot_trends
    dsimp only
    split
    · rfl
    · split <;> rfl

/-- Witness for C9: the density run on `exGeo` appends exactly the label
column, and a forecaster call returns its input table as final state. -/
theorem stages_preserve_input_witness :
    (exGeoOut.cols = exGeo.cols ++ ["cluster"]
      ∧ exGeoOut.rows.length = exGeo.rows.length
      ∧ ∃ labs : List Cell, labs.length = exGeo.rows.length
          ∧ exGeoOut.rows = List.zipWith (fun r c => r ++ [c]) exGeo.rows labs)
    ∧ (forecast_hotspot_trends exShort 0 7 fitErr).2 = exShort :=
  ⟨stages_preserve_input.1 exGeo 1 1 exGeoOut (by decide) (by rfl),
   stages_preserve_input.2.2 exShort 0 7 fitErr⟩

end CrimeLens
